import Mathlib

/-!
Verification development for the FaceWallet key-derivation and
credential-lifecycle core.

Bytes are modelled as `List Nat` (each entry a value below 256).  SHA-256 is
embedded executably, since the derivation retry loop in
`PasskeyECDSASigner.ensureValidPrivateKey` rehashes with SHA-256 and several
claims must be evaluated on concrete byte strings.
-/

set_option maxRecDepth 8192

/-- 32-bit truncation. -/
def w32 (x : Nat) : Nat := x % 4294967296

/-- 32-bit right rotation. -/
def rotr32 (n x : Nat) : Nat := w32 ((x >>> n) ||| (x <<< (32 - n)))

/-- SHA-256 big sigma 0. -/
def bigSigma0 (x : Nat) : Nat := (rotr32 2 x) ^^^ (rotr32 13 x) ^^^ (rotr32 22 x)

/-- SHA-256 big sigma 1. -/
def bigSigma1 (x : Nat) : Nat := (rotr32 6 x) ^^^ (rotr32 11 x) ^^^ (rotr32 25 x)

/-- SHA-256 small sigma 0. -/
def smallSigma0 (x : Nat) : Nat := (rotr32 7 x) ^^^ (rotr32 18 x) ^^^ (x >>> 3)

/-- SHA-256 small sigma 1. -/
def smallSigma1 (x : Nat) : Nat := (rotr32 17 x) ^^^ (rotr32 19 x) ^^^ (x >>> 10)

/-- SHA-256 choice function; negation is xor with `2^32 - 1`. -/
def chF (x y z : Nat) : Nat := (x &&& y) ^^^ ((x ^^^ 4294967295) &&& z)

/-- SHA-256 majority function. -/
def majF (x y z : Nat) : Nat := (x &&& y) ^^^ (x &&& z) ^^^ (y &&& z)

/-- SHA-256 round constants (decimal). -/
def sha256K : List Nat :=
  [1116352408, 1899447441, 3049323471, 3921009573, 961987163, 1508970993,
   2453635748, 2870763221, 3624381080, 310598401, 607225278, 1426881987,
   1925078388, 2162078206, 2614888103, 3248222580, 3835390401, 4022224774,
   264347078, 604807628, 770255983, 1249150122, 1555081692, 1996064986,
   2554220882, 2821834349, 2952996808, 3210313671, 3336571891, 3584528711,
   113926993, 338241895, 666307205, 773529912, 1294757372, 1396182291,
   1695183700, 1986661051, 2177026350, 2456956037, 2730485921, 2820302411,
   3259730800, 3345764771, 3516065817, 3600352804, 4094571909, 275423344,
   430227734, 506948616, 659060556, 883997877, 958139571, 1322822218,
   1537002063, 1747873779, 1955562222, 2024104815, 2227730452, 2361852424,
   2428436474, 2756734187, 3204031479, 3329325298]

/-- SHA-256 initial hash state (decimal). -/
def sha256H0 : List Nat :=
  [1779033703, 3144134277, 1013904242, 2773480762,
   1359893119, 2600822924, 528734635, 1541459225]

/-- Big-endian byte encoding of `val` on `numBytes` bytes. -/
def beBytes (numBytes val : Nat) : List Nat :=
  (List.range numBytes).map (fun i => (val >>> (8 * (numBytes - 1 - i))) % 256)

/-- SHA-256 padding: append `0x80`, zeros, and the 64-bit big-endian bit length. -/
def sha256Pad (msg : List Nat) : List Nat :=
  let len := msg.length
  let zeros := (119 - (len % 64)) % 64
  msg ++ 128 :: List.replicate zeros 0 ++ beBytes 8 (8 * len)

/-- Group big-endian bytes into 32-bit words. -/
def bytesToWords : List Nat → List Nat
  | a :: b :: c :: d :: rest =>
      (a * 16777216 + b * 65536 + c * 256 + d) :: bytesToWords rest
  | _ => []

/-- One message-schedule extension step: append the next `w[t]`. -/
def scheduleStep (w : List Nat) : List Nat :=
  let n := w.length
  let t := w32 (smallSigma1 (w.getD (n - 2) 0) + w.getD (n - 7) 0 +
                smallSigma0 (w.getD (n - 15) 0) + w.getD (n - 16) 0)
  w ++ [t]

/-- Extend the 16-word schedule by `k` further words. -/
def buildSchedule : List Nat → Nat → List Nat
  | w, 0 => w
  | w, k + 1 => buildSchedule (scheduleStep w) k

/-- One SHA-256 compression round on the eight working variables,
with `kw` the round constant already added to the schedule word. -/
def compressStep (state : List Nat) (kw : Nat) : List Nat :=
  match state with
  | [a, b, c, d, e, f, g, h] =>
      let t1 := w32 (h + bigSigma1 e + chF e f g + kw)
      let t2 := w32 (bigSigma0 a + majF a b c)
      [w32 (t1 + t2), a, b, c, w32 (d + t1), e, f, g]
  | s => s

/-- Compress a single 64-byte block into the running hash state. -/
def compressBlock (h : List Nat) (block : List Nat) : List Nat :=
  let w := buildSchedule (bytesToWords block) 48
  let kw := (List.zip sha256K w).map (fun p => w32 (p.1 + p.2))
  let final := kw.foldl compressStep h
  (List.zip h final).map (fun p => w32 (p.1 + p.2))

/-- Fold over `n` 64-byte blocks of the (already padded) message. -/
def sha256Blocks : Nat → List Nat → List Nat → List Nat
  | 0, h, _ => h
  | n + 1, h, msg => sha256Blocks n (compressBlock h (msg.take 64)) (msg.drop 64)

/-- SHA-256 of a byte string, as 32 bytes.  Embeds the `sha256` primitive used
by `ensureValidPrivateKey` (from the noble hashes library). -/
def sha256 (msg : List Nat) : List Nat :=
  let padded := sha256Pad msg
  let hh := sha256Blocks (padded.length / 64) sha256H0 padded
  hh.foldr (fun wd acc => beBytes 4 wd ++ acc) []

/-- The order of the secp256k1 curve group. -/
def secp256k1Order : Nat :=
  115792089237316195423570985008687907852837564279074904382605163141518161494337

/-- Big-endian bytes to natural number. -/
def bytesToNatBE (l : List Nat) : Nat := l.foldl (fun acc b => acc * 256 + b) 0

/-- The secp256k1 secret-key validity predicate, as in
`secp256k1.utils.isValidSecretKey`: 32 bytes whose big-endian value is a
nonzero scalar below the curve order. -/
def isValidSecretKey (k : List Nat) : Bool :=
  k.length == 32 && Nat.blt 0 (bytesToNatBE k) &&
    Nat.blt (bytesToNatBE k) secp256k1Order

/-! ## Key derivation (`PasskeyECDSASigner.ensureValidPrivateKey` and callers) -/

/-- The rejection-rehash retry loop of `PasskeyECDSASigner.ensureValidPrivateKey`:
while the key is not a valid secp256k1 secret key, replace it with its SHA-256.
The source loops unboundedly; `fuel` bounds the number of validity checks in
this embedding, `none` meaning the loop has not finished within `fuel` checks. -/
def ensureValidPrivateKey : Nat → List Nat → Option (List Nat)
  | 0, _ => none
  | fuel + 1, key =>
      if isValidSecretKey key then some key
      else ensureValidPrivateKey fuel (sha256 key)

/-- The same retry loop, additionally reporting how many rehash iterations ran
before the returned key was found. -/
def ensureValidPrivateKeyCount : Nat → List Nat → Option (Nat × List Nat)
  | 0, _ => none
  | fuel + 1, key =>
      if isValidSecretKey key then some (0, key)
      else
        (ensureValidPrivateKeyCount fuel (sha256 key)).map
          (fun r => (r.1 + 1, r.2))

/-- Outcome of running the retry loop for a given number of iterations.
`derivationUnreachable` is the distinct fatal error kind named by the spec;
it is part of the outcome type so that its unreachability in the code can be
stated, and the embedded loop below never produces it. -/
inductive DeriveOutcome
  | done (key : List Nat)
  | running (key : List Nat)
  | derivationUnreachable
deriving DecidableEq, Repr

/-- Small-step view of the `while` loop in `ensureValidPrivateKey`: after at
most `fuel` rehash iterations the loop has either exited with a key (`done`)
or is still iterating (`running`).  The source contains no iteration cap and
no error raise, so no case yields `derivationUnreachable`. -/
def ensureValidLoopRun : Nat → List Nat → DeriveOutcome
  | 0, key =>
      if isValidSecretKey key then DeriveOutcome.done key
      else DeriveOutcome.running key
  | fuel + 1, key =>
      if isValidSecretKey key then DeriveOutcome.done key
      else ensureValidLoopRun fuel (sha256 key)

/-- The claim that the retry loop can end in the distinct fatal
`DerivationUnreachable` error (as the spec's bounded-loop design requires). -/
def raisesDerivationUnreachable : Prop :=
  ∃ fuel key, ensureValidLoopRun fuel key = DeriveOutcome.derivationUnreachable

/-- Iterated SHA-256, the rehash chain of the retry loop. -/
def sha256Iter : Nat → List Nat → List Nat
  | 0, k => k
  | n + 1, k => sha256Iter n (sha256 k)

/-- The full derivation of the signing key from the hardware (PRF) output, as
in `PasskeyECDSASigner.register`/`authenticate` of the passkey library:
`privateKeyBytes = new Uint8Array(prfOutput).slice(0, 32)` followed by
`ensureValidPrivateKey`. -/
def derivePrivateKey (fuel : Nat) (prfOutput : List Nat) : Option (List Nat) :=
  ensureValidPrivateKey fuel (prfOutput.take 32)

/-- The derivation as the spec states it: the initial seed is
`HASH(domainTag || hardwareSecret)` (taking HASH to be the SHA-256 the code's
retry loop uses), and the same rejection-rehash loop then runs on it. -/
def specDerive (fuel : Nat) (domainTag hardwareSecret : List Nat) :
    Option (List Nat) :=
  ensureValidPrivateKey fuel (sha256 (domainTag ++ hardwareSecret))

/-- The hardware secret of the spec's test scenario: 32 bytes, all zero except
a final 1 (a valid secp256k1 secret key as it stands). -/
def secretOne : List Nat := List.replicate 31 0 ++ [1]

/-- UTF-8 encoding of one character. -/
def utf8Char (c : Char) : List Nat :=
  let n := c.toNat
  if n < 0x80 then [n]
  else if n < 0x800 then [0xC0 + n / 64, 0x80 + n % 64]
  else if n < 0x10000 then
    [0xE0 + n / 4096, 0x80 + (n / 64) % 64, 0x80 + n % 64]
  else
    [0xF0 + n / 262144, 0x80 + (n / 4096) % 64, 0x80 + (n / 64) % 64,
     0x80 + n % 64]

/-- UTF-8 encoding of a character string (`TextEncoder().encode`). -/
def utf8Bytes (s : List Char) : List Nat := s.foldr (fun c acc => utf8Char c ++ acc) []

/-- The domain-separation constant `prfSalt` of the signer configuration,
`'ecdsa-signing-key-v1'`, as UTF-8 bytes. -/
def prfSaltBytes : List Nat := utf8Bytes ("ecdsa-signing-key-v1".data)

/-- A signing account paired with its private key.  Stands for the
`ethers.Wallet` owned by the session. -/
structure Account where
  key : List Nat
deriving DecidableEq, Repr

/-- Modelled from the spec: the external signing library's
`accountFromKey (32 bytes) -> Account` constructor, which rejects a key that
fails the curve validity predicate (the `ethers.Wallet` constructor). -/
def accountFromKey (k : List Nat) : Except String Account :=
  if isValidSecretKey k then Except.ok ⟨k⟩
  else Except.error ("invalid private key")

/-! ## PIN validation and the credential gateway (`wagmi` signer) -/

/-- The PIN format check of `register`/`authenticate`:
`pin.length !== 6 || !/^\d{6}$/.test(pin)` rejects; so a PIN is accepted
exactly when it is six characters, all decimal digits. -/
def validPin (pin : List Char) : Bool :=
  pin.length == 6 && pin.all (fun c => decide ('0' ≤ c) && decide (c ≤ '9'))

/-- The PRF evaluation input sent to the gateway:
`pinHash = SHA-256(TextEncoder().encode(pin))`. -/
def pinDigest (pin : List Char) : List Nat := sha256 (utf8Bytes pin)

/-- One invocation of the external credential capability, recording the
evaluation input it was passed. -/
inductive GatewayCall
  | getCall (evalInput : List Nat)
  | createCall (evalInput : List Nat)
deriving DecidableEq, Repr

/-- The platform credential store, as the register flow observes it: at most
one credential for this relying party, the identifier the next creation will
be assigned, and whether the authenticator supports the PRF extension. -/
structure Platform where
  stored : Option Nat
  nextId : Nat
  prfSupported : Bool
deriving DecidableEq, Repr

/-- The probe `navigator.credentials.get` of the register flow: returns the
stored credential's identifier, or nothing when no credential exists or the
user cancels (both reach the same catch branch in the source). -/
def platGet (p : Platform) (userCancels : Bool) : Option Nat :=
  if userCancels then none else p.stored

/-- `navigator.credentials.create`: registers a fresh credential and returns
its identifier together with the updated platform state. -/
def platCreate (p : Platform) : Nat × Platform :=
  (p.nextId, { p with stored := some p.nextId, nextId := p.nextId + 1 })

/-- `PasskeyECDSASigner.register` of the wagmi signer: validate the PIN, probe
for an existing credential with the PIN digest as PRF evaluation input, and
only create a new credential (same evaluation input) when the probe yields
nothing.  Returns `(credentialId, isExisting)`, the platform state after the
call, and the trace of gateway invocations. -/
def signerRegister (plat : Platform) (userCancels : Bool) (pin : List Char) :
    Except String (Nat × Bool) × Platform × List GatewayCall :=
  if validPin pin then
    let d := pinDigest pin
    match platGet plat userCancels with
    | some id => (Except.ok (id, true), plat, [GatewayCall.getCall d])
    | none =>
        let (newId, plat1) := platCreate plat
        if plat1.prfSupported then
          (Except.ok (newId, false), plat1,
           [GatewayCall.getCall d, GatewayCall.createCall d])
        else
          (Except.error ("PRF extension not supported"), plat1,
           [GatewayCall.getCall d, GatewayCall.createCall d])
  else (Except.error ("PIN must be exactly 6 digits"), plat, [])

/-- Outcome of the assertion call inside the wagmi signer's `authenticate`:
either the platform returns an assertion (with or without a PRF secret), or
the call throws. -/
inductive GetOutcome
  | assertion (credId : Nat) (prfFirst : Option (List Nat))
  | thrown (msg : String)

/-- `PasskeyECDSASigner.authenticate` of the wagmi signer: validate the PIN,
request an assertion with the PIN digest as PRF evaluation input, fail with
`Authentication failed` when no PRF secret comes back, and otherwise derive
the signing key as `keccak256(prfOutput)` (the ethers keccak-256 primitive is
passed in as the external library function it is) and construct the account.
Returns the result and the trace of gateway invocations. -/
def signerAuthenticate (keccak : List Nat → List Nat) (outcome : GetOutcome)
    (pin : List Char) : Except String (Nat × Account) × List GatewayCall :=
  if validPin pin then
    let d := pinDigest pin
    match outcome with
    | GetOutcome.thrown msg => (Except.error msg, [GatewayCall.getCall d])
    | GetOutcome.assertion _ none =>
        (Except.error ("Authentication failed"), [GatewayCall.getCall d])
    | GetOutcome.assertion id (some prfOut) =>
        match accountFromKey (keccak prfOut) with
        | Except.ok acct => (Except.ok (id, acct), [GatewayCall.getCall d])
        | Except.error e => (Except.error e, [GatewayCall.getCall d])
  else (Except.error ("PIN must be exactly 6 digits"), [])

/-! ## The session provider (`PasskeyProvider`) and address binding -/

/-- The session state held by `PasskeyProvider`. -/
structure ProviderState where
  hasPasskey : Bool
  isAuthenticated : Bool
  cachedWallet : Option Account
  previousAddress : Option String
deriving DecidableEq, Repr

/-- `PasskeyProvider.authenticate`: requires an active address; returns the
cached wallet with no signer round-trip when already authenticated; otherwise
consults the signer (whose outcome, a function of the PIN, is the external
call being awaited), caching on success and clearing state and rethrowing on
failure.  The final component counts signer invocations. -/
def providerAuthenticate (activeAddress : Option String) (pin : List Char)
    (signerOutcome : List Char → Except String Account) (st : ProviderState) :
    Except String Account × ProviderState × Nat :=
  match activeAddress with
  | none => (Except.error ("No active address"), st, 0)
  | some _ =>
      match st.isAuthenticated, st.cachedWallet with
      | true, some w => (Except.ok w, st, 0)
      | _, _ =>
          match signerOutcome pin with
          | Except.ok acct =>
              (Except.ok acct,
               { st with cachedWallet := some acct, isAuthenticated := true,
                         hasPasskey := true }, 1)
          | Except.error e =>
              (Except.error e,
               { st with isAuthenticated := false, cachedWallet := none }, 1)

/-- `PasskeyProvider.logout`: clear the cached wallet and the flag. -/
def providerLogout (st : ProviderState) : ProviderState :=
  { st with cachedWallet := none, isAuthenticated := false }

/-- The address-change effect of `PasskeyProvider`: when the active address
differs from the previously seen one, clear the cached wallet, drop
authentication, record the new address, and re-run the passkey check (which
resets `hasPasskey` to `false`); otherwise leave the state untouched. -/
def addressChangeEffect (activeAddress : Option String) (st : ProviderState) :
    ProviderState :=
  if activeAddress ≠ st.previousAddress then
    { hasPasskey := false, isAuthenticated := false, cachedWallet := none,
      previousAddress := activeAddress }
  else st

/-- How the active address was produced. -/
inductive AddressSource
  | wallet
  | manual
deriving DecidableEq, Repr

/-- Which input the user selected as the source of addresses. -/
inductive AddressMode
  | wallet
  | manual
deriving DecidableEq, Repr

/-- The address state exposed by `AddressProvider`. -/
structure AddressState where
  address : Option String
  source : Option AddressSource
deriving DecidableEq, Repr

/-- JavaScript truthiness of an optional string. -/
def strTruthy : Option String → Bool
  | none => false
  | some s => s ≠ ""

/-- The `addressState` computation of `AddressProvider`: wallet mode with a
connected wallet wins, else a manual address in manual mode, else nothing.
`activeAddress` is its `address` component. -/
def addressState (mode : AddressMode) (isConnected : Bool)
    (walletAddress : Option String) (manualAddress : Option String) :
    AddressState :=
  if mode = AddressMode.wallet ∧ isConnected ∧ strTruthy walletAddress then
    { address := walletAddress, source := some AddressSource.wallet }
  else if mode = AddressMode.manual ∧ strTruthy manualAddress then
    { address := manualAddress, source := some AddressSource.manual }
  else { address := none, source := none }

/-! ## Theorems -/

theorem sha256_empty_vector :
    sha256 [] =
      [227, 176, 196, 66, 152, 252, 28, 20, 154, 251, 244, 200, 153, 111,
       185, 36, 39, 174, 65, 228, 100, 155, 147, 76, 164, 149, 153, 27,
       120, 82, 184, 85] := by decide

theorem sha256_abc_vector :
    sha256 [97, 98, 99] =
      [186, 120, 22, 191, 143, 1, 207, 234, 65, 65, 64, 222, 93, 174, 34,
       35, 176, 3, 97, 163, 150, 23, 122, 156, 180, 16, 255, 97, 242, 0,
       21, 173] := by decide

/-- A successful run of the retry loop returns the first valid element of the
rehash chain of its starting key. -/
theorem ensureValid_chain : ∀ (fuel : Nat) (key out : List Nat),
    ensureValidPrivateKey fuel key = some out →
    ∃ n, out = sha256Iter n key ∧ isValidSecretKey out = true ∧
      ∀ m, m < n → isValidSecretKey (sha256Iter m key) = false := by
  intro fuel
  induction fuel with
  | zero => intro key out h; simp [ensureValidPrivateKey] at h
  | succ fuel ih =>
      intro key out h
      by_cases hv : isValidSecretKey key = true
      · have hk : key = out := by simpa [ensureValidPrivateKey, hv] using h
        refine ⟨0, ?_, ?_, ?_⟩
        · simpa [sha256Iter] using hk.symm
        · exact hk ▸ hv
        · intro m hm; omega
      · have hvf : isValidSecretKey key = false := by simpa using hv
        have h2 : ensureValidPrivateKey fuel (sha256 key) = some out := by
          simpa [ensureValidPrivateKey, hv] using h
        obtain ⟨n, hout, hval, hbelow⟩ := ih (sha256 key) out h2
        refine ⟨n + 1, ?_, hval, ?_⟩
        · simpa [sha256Iter] using hout
        · intro m hm
          cases m with
          | zero => simpa [sha256Iter] using hvf
          | succ m2 =>
              have hm2 : m2 < n := by omega
              simpa [sha256Iter] using hbelow m2 hm2

/-- A successful run of the counting variant of the retry loop returns the
index of the first valid element of the rehash chain together with that
element. -/
theorem ensureValidCount_chain : ∀ (fuel : Nat) (key : List Nat)
    (n : Nat) (out : List Nat),
    ensureValidPrivateKeyCount fuel key = some (n, out) →
    out = sha256Iter n key ∧ isValidSecretKey out = true ∧
      ∀ m, m < n → isValidSecretKey (sha256Iter m key) = false := by
  intro fuel
  induction fuel with
  | zero => intro key n out h; simp [ensureValidPrivateKeyCount] at h
  | succ fuel ih =>
      intro key n out h
      by_cases hv : isValidSecretKey key = true
      · obtain ⟨hn, hk⟩ : 0 = n ∧ key = out := by
          simpa [ensureValidPrivateKeyCount, hv, Prod.ext_iff] using h
        subst hn
        refine ⟨by simpa [sha256Iter] using hk.symm, hk ▸ hv, ?_⟩
        intro m hm; omega
      · have hvf : isValidSecretKey key = false := by simpa using hv
        have h2 : (ensureValidPrivateKeyCount fuel (sha256 key)).map
            (fun r => (r.1 + 1, r.2)) = some (n, out) := by
          simpa [ensureValidPrivateKeyCount, hv] using h
        rw [Option.map_eq_some'] at h2
        obtain ⟨r, hr, hfr⟩ := h2
        obtain ⟨hn, hout⟩ : r.1 + 1 = n ∧ r.2 = out := by
          simpa [Prod.ext_iff] using hfr
        obtain ⟨ho, hval, hbelow⟩ := ih (sha256 key) r.1 r.2 (by simpa using hr)
        subst hn
        refine ⟨by simpa [sha256Iter] using hout ▸ ho, hout ▸ hval, ?_⟩
        intro m hm
        cases m with
        | zero => simpa [sha256Iter] using hvf
        | succ m2 =>
            have hm2 : m2 < r.1 := by omega
            simpa [sha256Iter] using hbelow m2 hm2

/-- The counting variant agrees with the retry loop itself. -/
theorem ensureValidCount_sound : ∀ (fuel : Nat) (key : List Nat)
    (r : Nat × List Nat),
    ensureValidPrivateKeyCount fuel key = some r →
    ensureValidPrivateKey fuel key = some r.2 := by
  intro fuel
  induction fuel with
  | zero => intro key r h; simp [ensureValidPrivateKeyCount] at h
  | succ fuel ih =>
      intro key r h
      by_cases hv : isValidSecretKey key = true
      · have hk : (0, key) = r := by
          simpa [ensureValidPrivateKeyCount, hv] using h
        simp [ensureValidPrivateKey, hv, ← hk]
      · have h2 : (ensureValidPrivateKeyCount fuel (sha256 key)).map
            (fun r2 => (r2.1 + 1, r2.2)) = some r := by
          simpa [ensureValidPrivateKeyCount, hv] using h
        rw [Option.map_eq_some'] at h2
        obtain ⟨a, ha, hfa⟩ := h2
        have hsnd : a.2 = r.2 := by
          have := congrArg Prod.snd hfa
          simpa using this
        have := ih (sha256 key) a ha
        simpa [ensureValidPrivateKey, hv, hsnd] using this

/-- C1 counterexample: at the concrete hardware secret `0x00..01` the code's
derivation returns the secret's own first 32 bytes unchanged, while the
claimed algorithm (initial seed `HASH(domainTag || secret)`, with the SHA-256
used by the code's own retry loop and the signer's domain constant) returns
the hash, and the two disagree. -/
theorem derive_seed_not_domain_tagged_cex :
    derivePrivateKey 8 secretOne = some secretOne ∧
    specDerive 8 prfSaltBytes secretOne =
      some (sha256 (prfSaltBytes ++ secretOne)) ∧
    specDerive 8 prfSaltBytes secretOne ≠ derivePrivateKey 8 secretOne := by
  decide

/-- C1 (amended): the derivation takes the first 32 bytes of the hardware
secret as the initial seed (the domain constant is the PRF evaluation input,
not hashed into the seed), and while the seed fails the secp256k1 validity
predicate replaces it with `SHA-256(seed)`, returning the first valid seed. -/
theorem derive_first_valid_iterate (fuel : Nat) (prfOutput out : List Nat)
    (h : derivePrivateKey fuel prfOutput = some out) :
    ∃ n, out = sha256Iter n (prfOutput.take 32) ∧
      isValidSecretKey out = true ∧
      ∀ m, m < n → isValidSecretKey (sha256Iter m (prfOutput.take 32)) = false :=
  ensureValid_chain fuel (prfOutput.take 32) out h

theorem derive_first_valid_iterate_witness :
    derivePrivateKey 4 secretOne = some secretOne ∧
    ∃ n, secretOne = sha256Iter n (secretOne.take 32) ∧
      isValidSecretKey secretOne = true ∧
      ∀ m, m < n → isValidSecretKey (sha256Iter m (secretOne.take 32)) = false :=
  ⟨by decide, derive_first_valid_iterate 4 secretOne secretOne (by decide)⟩

/-- C2: whenever the derivation returns a key, that key satisfies the
secp256k1 secret-key validity predicate, so the invalid-key branch of the
external account constructor is unreachable for derived keys. -/
theorem derive_output_valid (fuel : Nat) (prfOutput out : List Nat)
    (h : derivePrivateKey fuel prfOutput = some out) :
    isValidSecretKey out = true ∧ accountFromKey out = Except.ok ⟨out⟩ := by
  obtain ⟨n, _, hval, _⟩ := ensureValid_chain fuel (prfOutput.take 32) out h
  exact ⟨hval, by simp [accountFromKey, hval]⟩

theorem derive_output_valid_witness :
    isValidSecretKey secretOne = true ∧
    accountFromKey secretOne = Except.ok ⟨secretOne⟩ :=
  derive_output_valid 2 secretOne secretOne (by decide)

/-- C3: two runs of the derivation on the same input perform the same number
of rehash retries and return the same key, and the counting run agrees with
the derivation itself — the derivation is a deterministic function of its
input. -/
theorem derive_deterministic (f1 f2 : Nat) (key : List Nat)
    (r1 r2 : Nat × List Nat)
    (h1 : ensureValidPrivateKeyCount f1 key = some r1)
    (h2 : ensureValidPrivateKeyCount f2 key = some r2) :
    r1 = r2 ∧ ensureValidPrivateKey f1 key = some r1.2 := by
  obtain ⟨ho1, hv1, hb1⟩ := ensureValidCount_chain f1 key r1.1 r1.2 (by simpa using h1)
  obtain ⟨ho2, hv2, hb2⟩ := ensureValidCount_chain f2 key r2.1 r2.2 (by simpa using h2)
  have hn : r1.1 = r2.1 := by
    rcases Nat.lt_trichotomy r1.1 r2.1 with hlt | heq | hgt
    · have ht : isValidSecretKey (sha256Iter r1.1 key) = true := by
        rw [← ho1]; exact hv1
      have hf := hb2 r1.1 hlt
      rw [ht] at hf; exact absurd hf (by simp)
    · exact heq
    · have ht : isValidSecretKey (sha256Iter r2.1 key) = true := by
        rw [← ho2]; exact hv2
      have hf := hb1 r2.1 hgt
      rw [ht] at hf; exact absurd hf (by simp)
  have hout : r1.2 = r2.2 := by rw [ho1, ho2, hn]
  exact ⟨Prod.ext hn hout, ensureValidCount_sound f1 key r1 h1⟩

theorem derive_deterministic_witness :
    ((0, secretOne) : Nat × List Nat) = (0, secretOne) ∧
    ensureValidPrivateKey 3 secretOne = some secretOne :=
  derive_deterministic 3 7 secretOne (0, secretOne) (0, secretOne)
    (by decide) (by decide)

/-- C4 counterexample: the negation of the claim's error behavior — the
embedded retry loop of `ensureValidPrivateKey` can never reach the
`derivationUnreachable` outcome, at any iteration bound and on any input,
because the source loop has no iteration cap and raises no error. -/
theorem no_derivation_unreachable_outcome : ¬ raisesDerivationUnreachable := by
  rintro ⟨fuel, key, h⟩
  induction fuel generalizing key with
  | zero =>
      by_cases hv : isValidSecretKey key = true <;>
        simp [ensureValidLoopRun, hv] at h
  | succ fuel ih =>
      by_cases hv : isValidSecretKey key = true
      · simp [ensureValidLoopRun, hv] at h
      · exact ih (sha256 key) (by simpa [ensureValidLoopRun, hv] using h)

/-- C4 (amended): the retry loop is an unbounded `while` with no iteration
cap: after any number of iterations it has either returned a valid key or is
still iterating on an invalid one; no error outcome exists. -/
theorem retry_loop_outcomes (fuel : Nat) (key : List Nat) :
    (∃ out, ensureValidLoopRun fuel key = DeriveOutcome.done out ∧
        isValidSecretKey out = true) ∨
    (∃ k2, ensureValidLoopRun fuel key = DeriveOutcome.running k2 ∧
        isValidSecretKey k2 = false) := by
  induction fuel generalizing key with
  | zero =>
      by_cases hv : isValidSecretKey key = true
      · exact Or.inl ⟨key, by simp [ensureValidLoopRun, hv], hv⟩
      · exact Or.inr ⟨key, by simp [ensureValidLoopRun, hv], by simpa using hv⟩
  | succ fuel ih =>
      by_cases hv : isValidSecretKey key = true
      · exact Or.inl ⟨key, by simp [ensureValidLoopRun, hv], hv⟩
      · simpa [ensureValidLoopRun, hv] using ih (sha256 key)

/-- C5: for a valid PIN, `register` first probes for an existing credential
with the PIN digest as the PRF evaluation input.  Starting from a platform
with no credential, the first call creates one (same evaluation input) and
reports `isExisting = false`; the second call finds that credential and
reports `isExisting = true` with the same identifier, performing no create. -/
theorem register_probe_then_create (plat : Platform) (pin : List Char)
    (hpin : validPin pin = true) (hprf : plat.prfSupported = true)
    (hnone : plat.stored = none) :
    signerRegister plat false pin =
      (Except.ok (plat.nextId, false),
       { stored := some plat.nextId, nextId := plat.nextId + 1,
         prfSupported := true },
       [GatewayCall.getCall (pinDigest pin),
        GatewayCall.createCall (pinDigest pin)]) ∧
    signerRegister
        { stored := some plat.nextId, nextId := plat.nextId + 1,
          prfSupported := true } false pin =
      (Except.ok (plat.nextId, true),
       { stored := some plat.nextId, nextId := plat.nextId + 1,
         prfSupported := true },
       [GatewayCall.getCall (pinDigest pin)]) := by
  constructor
  · simp [signerRegister, hpin, platGet, hnone, platCreate, hprf]
  · simp [signerRegister, hpin, platGet, platCreate]

theorem register_probe_then_create_witness :
    signerRegister ⟨none, 7, true⟩ false ['1', '2', '3', '4', '5', '6'] =
      (Except.ok (7, false), ⟨some 7, 8, true⟩,
       [GatewayCall.getCall (pinDigest ['1', '2', '3', '4', '5', '6']),
        GatewayCall.createCall (pinDigest ['1', '2', '3', '4', '5', '6'])]) ∧
    signerRegister ⟨some 7, 8, true⟩ false ['1', '2', '3', '4', '5', '6'] =
      (Except.ok (7, true), ⟨some 7, 8, true⟩,
       [GatewayCall.getCall (pinDigest ['1', '2', '3', '4', '5', '6'])]) :=
  register_probe_then_create ⟨none, 7, true⟩ ['1', '2', '3', '4', '5', '6']
    (by decide) rfl rfl

/-- C6 counterexample: with the same address re-selected via a different
source (wallet mode versus manual mode both yielding the same string), the
address-change effect leaves an authenticated session with its cache intact,
because it compares only the address string. -/
theorem same_address_source_change_keeps_session :
    addressState AddressMode.wallet true (some ("0xA1")) (some ("0xA1")) =
      { address := some ("0xA1"), source := some AddressSource.wallet } ∧
    addressState AddressMode.manual true (some ("0xA1")) (some ("0xA1")) =
      { address := some ("0xA1"), source := some AddressSource.manual } ∧
    addressChangeEffect (some ("0xA1"))
        { hasPasskey := true, isAuthenticated := true,
          cachedWallet := some ⟨secretOne⟩, previousAddress := some ("0xA1") } =
      { hasPasskey := true, isAuthenticated := true,
        cachedWallet := some ⟨secretOne⟩, previousAddress := some ("0xA1") } := by
  decide

/-- C6 (amended): an address-change event whose address string differs from
the previously recorded one clears the cached account and forces the session
to unauthenticated (so `isAuthenticated` flips to false without `logout`);
re-selection of the identical address string is not treated as a change. -/
theorem address_change_resets_session (st : ProviderState)
    (addr : Option String) (h : addr ≠ st.previousAddress) :
    addressChangeEffect addr st =
      { hasPasskey := false, isAuthenticated := false, cachedWallet := none,
        previousAddress := addr } ∧
    (addressChangeEffect addr st).isAuthenticated = false := by
  simp [addressChangeEffect, h]

theorem address_change_resets_session_witness :
    addressChangeEffect (some ("0xB"))
        { hasPasskey := true, isAuthenticated := true,
          cachedWallet := some ⟨secretOne⟩, previousAddress := some ("0xA") } =
      { hasPasskey := false, isAuthenticated := false, cachedWallet := none,
        previousAddress := some ("0xB") } ∧
    (addressChangeEffect (some ("0xB"))
        { hasPasskey := true, isAuthenticated := true,
          cachedWallet := some ⟨secretOne⟩,
          previousAddress := some ("0xA") }).isAuthenticated = false :=
  address_change_resets_session _ _ (by decide)

/-- C7: a PIN that is not exactly six decimal digits is rejected by both
`register` and `authenticate` with the `PIN must be exactly 6 digits` error
and an empty gateway trace — no gateway invocation happens. -/
theorem invalid_pin_rejected_before_gateway (pin : List Char)
    (h : validPin pin = false) (plat : Platform) (userCancels : Bool)
    (keccak : List Nat → List Nat) (outcome : GetOutcome) :
    signerRegister plat userCancels pin =
      (Except.error ("PIN must be exactly 6 digits"), plat, []) ∧
    signerAuthenticate keccak outcome pin =
      (Except.error ("PIN must be exactly 6 digits"), []) := by
  constructor <;> simp [signerRegister, signerAuthenticate, h]

theorem invalid_pin_rejected_before_gateway_witness :
    (signerRegister ⟨none, 0, true⟩ false ['1', '2', '3', '4', '5'] =
      (Except.error ("PIN must be exactly 6 digits"), ⟨none, 0, true⟩, []) ∧
     signerAuthenticate (fun b => b) (GetOutcome.thrown ("x"))
        ['1', '2', '3', '4', '5'] =
      (Except.error ("PIN must be exactly 6 digits"), [])) ∧
    (signerRegister ⟨none, 0, true⟩ false ['a', 'b', 'c', 'd', 'e', 'f'] =
      (Except.error ("PIN must be exactly 6 digits"), ⟨none, 0, true⟩, []) ∧
     signerAuthenticate (fun b => b) (GetOutcome.thrown ("x"))
        ['a', 'b', 'c', 'd', 'e', 'f'] =
      (Except.error ("PIN must be exactly 6 digits"), [])) :=
  ⟨invalid_pin_rejected_before_gateway ['1', '2', '3', '4', '5'] (by decide)
      ⟨none, 0, true⟩ false (fun b => b) (GetOutcome.thrown ("x")),
   invalid_pin_rejected_before_gateway ['a', 'b', 'c', 'd', 'e', 'f'] (by decide)
      ⟨none, 0, true⟩ false (fun b => b) (GetOutcome.thrown ("x"))⟩

/-- C8: a successful `authenticate` from an unauthenticated session caches the
account with one signer round-trip; the immediately following call with the
same PIN returns that cached account from the fast path, with no further
signer (hence no gateway) invocation and no state change. -/
theorem authenticate_cached_idempotent (a : String) (pin : List Char)
    (sOut : List Char → Except String Account) (st : ProviderState)
    (acct : Account) (hauth : st.isAuthenticated = false)
    (hok : sOut pin = Except.ok acct) :
    providerAuthenticate (some a) pin sOut st =
      (Except.ok acct,
       { st with cachedWallet := some acct, isAuthenticated := true,
                 hasPasskey := true }, 1) ∧
    providerAuthenticate (some a) pin sOut
        { st with cachedWallet := some acct, isAuthenticated := true,
                  hasPasskey := true } =
      (Except.ok acct,
       { st with cachedWallet := some acct, isAuthenticated := true,
                 hasPasskey := true }, 0) := by
  constructor
  · simp [providerAuthenticate, hauth, hok]
  · simp [providerAuthenticate]

theorem authenticate_cached_idempotent_witness :
    providerAuthenticate (some ("0xA")) ['1', '3', '5', '7', '9', '0']
        (fun _ => Except.ok ⟨secretOne⟩) ⟨false, false, none, some ("0xA")⟩ =
      (Except.ok ⟨secretOne⟩, ⟨true, true, some ⟨secretOne⟩, some ("0xA")⟩, 1) ∧
    providerAuthenticate (some ("0xA")) ['1', '3', '5', '7', '9', '0']
        (fun _ => Except.ok ⟨secretOne⟩)
        ⟨true, true, some ⟨secretOne⟩, some ("0xA")⟩ =
      (Except.ok ⟨secretOne⟩, ⟨true, true, some ⟨secretOne⟩, some ("0xA")⟩, 0) :=
  authenticate_cached_idempotent ("0xA") ['1', '3', '5', '7', '9', '0']
    (fun _ => Except.ok ⟨secretOne⟩) ⟨false, false, none, some ("0xA")⟩
    ⟨secretOne⟩ rfl rfl

/-- C9: when the signer call fails during `authenticate`, the session clears
the cached account, remains unauthenticated, and rethrows exactly the
signer's error. -/
theorem authenticate_error_resets_and_propagates (a : String) (pin : List Char)
    (sOut : List Char → Except String Account) (st : ProviderState)
    (e : String) (hauth : st.isAuthenticated = false)
    (herr : sOut pin = Except.error e) :
    providerAuthenticate (some a) pin sOut st =
      (Except.error e,
       { st with isAuthenticated := false, cachedWallet := none }, 1) := by
  simp [providerAuthenticate, hauth, herr]

theorem authenticate_error_resets_and_propagates_witness :
    providerAuthenticate (some ("0xA")) ['1', '2', '3', '4', '5', '6']
        (fun _ => Except.error ("Authentication failed"))
        ⟨true, false, some ⟨secretOne⟩, some ("0xA")⟩ =
      (Except.error ("Authentication failed"),
       ⟨true, false, none, some ("0xA")⟩, 1) :=
  authenticate_error_resets_and_propagates ("0xA") ['1', '2', '3', '4', '5', '6']
    (fun _ => Except.error ("Authentication failed"))
    ⟨true, false, some ⟨secretOne⟩, some ("0xA")⟩
    ("Authentication failed") rfl rfl

/-- C10: with the authenticated flag set and an account cached, `authenticate`
returns the cached account for every PIN string — malformed or different —
with no PIN validation, no signer invocation, no error, and no state change. -/
theorem authenticated_fast_path_ignores_pin (a : String) (pin : List Char)
    (sOut : List Char → Except String Account) (st : ProviderState)
    (w : Account) (hauth : st.isAuthenticated = true)
    (hw : st.cachedWallet = some w) :
    providerAuthenticate (some a) pin sOut st = (Except.ok w, st, 0) := by
  simp [providerAuthenticate, hauth, hw]

theorem authenticated_fast_path_ignores_pin_witness :
    validPin ['a', 'b'] = false ∧
    providerAuthenticate (some ("0xA")) ['a', 'b']
        (fun _ => Except.error ("gateway"))
        ⟨true, true, some ⟨secretOne⟩, some ("0xA")⟩ =
      (Except.ok ⟨secretOne⟩, ⟨true, true, some ⟨secretOne⟩, some ("0xA")⟩, 0) :=
  ⟨by decide,
   authenticated_fast_path_ignores_pin ("0xA") ['a', 'b']
     (fun _ => Except.error ("gateway"))
     ⟨true, true, some ⟨secretOne⟩, some ("0xA")⟩ ⟨secretOne⟩ rfl rfl⟩
